import Mathlib

/-!
Shallow embedding of the NETCONF connection-establishment layer
(client dialers/transport, Call-Home listener and dialer, session factory),
with theorems checking the natural-language specification against it.

External effects (TCP dial, TLS/SSH handshakes, session creation, the
remote peer's channel and request streams) are modelled as explicit inputs
("worlds"); the effects a function performs (closes, replies, deadline
operations, trace events) are returned as explicit lists, and fallible Go
functions return `Except`/`Option` values.
-/

/-- Go errors are modelled by their message string; `none` is Go's nil error. -/
abbrev GoErr := String

deriving instance DecidableEq for Except

/-! ## Call-Home server dialer (device role), SSH channel negotiation
Embedding of `SSHDialer.Dial` / `SSHDialer.handleChannels` from the
server-side callhome package. -/

namespace CallHomeServer

/-- An SSH channel request as delivered on a session channel: a request
type string and a raw payload (bytes). For a `"subsystem"` request the
payload is a 4-byte length prefix followed by the subsystem name. -/
structure ChanRequest where
  reqType : String
  payload : List Nat
deriving DecidableEq, Repr

/-- The UTF-8 bytes of the string `"netconf"`, which the Go code compares
against `string(req.Payload[4:])`. -/
def netconfBytes : List Nat := [110, 101, 116, 99, 111, 110, 102]

/-- An incoming SSH channel-open request: its channel type, and what
`Accept()` on it would yield (`none` models an `Accept` error, `some reqs`
the accepted channel together with its finite stream of channel requests). -/
structure NewChannel where
  channelType : String
  acceptResult : Option (List ChanRequest)
deriving DecidableEq, Repr

/-- Outcome of the request-servicing goroutine: either it consumed the whole
request stream (recording the boolean replies it sent, in order, and whether
a netconf subsystem request was granted), or it panicked on an out-of-bounds
payload slice after sending the recorded replies. -/
inductive SvcOutcome
  | completed (replies : List Bool) (found : Bool)
  | panicked (replies : List Bool)
deriving DecidableEq, Repr

/-- True when the goroutine ran to completion without panicking. -/
def SvcOutcome.isCompleted : SvcOutcome → Bool
  | .completed _ _ => true
  | .panicked _ => false

/-- Embedding of the request-servicing goroutine inside `handleChannels`:

  for req := range requests {
    if req.Type == "subsystem" && string(req.Payload[4:]) == "netconf" {
      _ = req.Reply(true, nil); subsystemChan <- true
      for r := range requests { _ = r.Reply(false, nil) }
      return
    }
    _ = req.Reply(false, nil)
  }
  subsystemChan <- false

Go's `&&` short-circuits, so `req.Payload[4:]` is evaluated only when the
request type is `"subsystem"`; the slice `p[4:]` requires `4 ≤ len(p)` and
panics otherwise, which the model returns as `.panicked`. -/
def serviceRequests : List ChanRequest → SvcOutcome
  | [] => .completed [] false
  | req :: rest =>
    if req.reqType = "subsystem" then
      if 4 ≤ req.payload.length then
        if req.payload.drop 4 = netconfBytes then
          .completed (true :: rest.map (fun _ => false)) true
        else
          match serviceRequests rest with
          | .completed rs f => .completed (false :: rs) f
          | .panicked rs => .panicked (false :: rs)
      else
        .panicked []
    else
      match serviceRequests rest with
      | .completed rs f => .completed (false :: rs) f
      | .panicked rs => .panicked (false :: rs)

/-- Observable events of the negotiation: a channel-open rejection (reason
code and message), a boolean reply to a channel request, closing the
accepted channel, and the SubsystemReady trace hook. In the Go code the
post-subsystem negative replies run in a goroutine concurrent with the
returning `Dial`; the model serializes them before `subsystemReady`. -/
inductive CHEvent
  | channelRejected (reason : String) (message : String)
  | requestReplied (ok : Bool)
  | channelClosed
  | subsystemReady
  | rawConnClosed
deriving DecidableEq, Repr

/-- Result of `Dial`/`handleChannels`: a ready Call-Home connection, an
error return (with its message), or a runtime panic in the request
goroutine. -/
inductive CHResult
  | connection
  | chErr (msg : String)
  | panicked
deriving DecidableEq, Repr

/-- Embedding of `SSHDialer.handleChannels`: iterate incoming channel-open
requests, rejecting every non-`"session"` type with reason
UnknownChannelType and message `"unknown channel type"` and continuing; on
the first session channel, accept it and wait on the request-servicing
goroutine; if no netconf subsystem request arrived, close the channel and
fail; if the channel stream is exhausted without a session channel, fail
with a protocol error. -/
def handleChannels : List NewChannel → List CHEvent × CHResult
  | [] => ([], .chErr "callhome: no session channel received")
  | nc :: rest =>
    if nc.channelType = "session" then
      match nc.acceptResult with
      | none => ([], .chErr "callhome: failed to accept channel")
      | some reqs =>
        match serviceRequests reqs with
        | .panicked rs => (rs.map CHEvent.requestReplied, .panicked)
        | .completed rs found =>
          if found then
            (rs.map CHEvent.requestReplied ++ [.subsystemReady], .connection)
          else
            (rs.map CHEvent.requestReplied ++ [.channelClosed],
             .chErr "callhome: netconf subsystem not requested")
    else
      let r := handleChannels rest
      (.channelRejected "UnknownChannelType" "unknown channel type" :: r.1, r.2)

/-- World of external outcomes for one Call-Home SSH `Dial`: the TCP dial
result, the SSH server-handshake result, and the stream of channel-open
requests the connected client will send. -/
structure SSHDialWorld where
  tcpErr : Option GoErr
  handshakeErr : Option GoErr
  channels : List NewChannel
deriving DecidableEq, Repr

/-- Embedding of the server-side callhome `SSHDialer.Dial`: TCP-dial the
manager, perform the SSH handshake as server (closing the raw connection on
handshake failure), then negotiate channels. Trace hooks other than
`SubsystemReady` are no-ops here and are not recorded. -/
def SSHDialer.Dial (w : SSHDialWorld) : List CHEvent × CHResult :=
  match w.tcpErr with
  | some e => ([], .chErr ("callhome: failed to connect to client: " ++ e))
  | none =>
    match w.handshakeErr with
    | some e => ([.rawConnClosed], .chErr ("callhome: SSH handshake failed: " ++ e))
    | none => handleChannels w.channels

/-- Spec-side predicate: a channel request that is a `"subsystem"` request
whose payload names `"netconf"` (bytes from offset 4 onward). -/
def IsNetconfSubsystem (r : ChanRequest) : Prop :=
  r.reqType = "subsystem" ∧ r.payload.drop 4 = netconfBytes

instance (r : ChanRequest) : Decidable (IsNetconfSubsystem r) := by
  unfold IsNetconfSubsystem
  infer_instance

end CallHomeServer

/-! ## Resources and close tracking
Resources opened during connection establishment, used to record which
`Close` calls a code path performs and in what order. -/

/-- A resource that can be opened and closed during connection
establishment. `rawConn` is the TCP connection, `client` the SSH client,
`session` the SSH session, `writer` the lazily-materialized stdin pipe,
`tlsConn` the TLS wrapper connection. -/
inductive Resource
  | rawConn
  | client
  | session
  | writer
  | tlsConn
deriving DecidableEq, Repr

/-! ## Client package: SSH and TLS dialers, connections, transport -/

namespace Client

/-- State of an `sshConn` (fresh-dial variant) at `Close` time: whether the
stdin pipe was materialized, and the errors the three underlying `Close`
calls would return. `client` and `session` are always non-nil by
construction in `SSHDialer.Dial`. -/
structure SshConnState where
  writerSet : Bool
  werr : Option GoErr
  serr : Option GoErr
  cerr : Option GoErr
deriving DecidableEq, Repr

/-- Embedding of `sshConn.Close` from the client package: close the writer
(if materialized), the session, then the client, remembering the first
error but continuing through all of them, and return that first error. -/
def sshConn.Close (c : SshConnState) : List Resource × Option GoErr :=
  let firstErr : Option GoErr := none
  let step := fun (acc : List Resource × Option GoErr) (r : Resource) (e : Option GoErr) =>
    (acc.1 ++ [r], if acc.2 = none then e else acc.2)
  let acc : List Resource × Option GoErr := ([], firstErr)
  let acc := if c.writerSet then step acc .writer c.werr else acc
  let acc := step acc .session c.serr
  let acc := step acc .client c.cerr
  acc

/-- State of an `sshSessionConn` (existing-client variant) at `Close` time:
it wraps only the session (and possibly a materialized writer), never the
caller's SSH client. -/
structure SshSessionConnState where
  writerSet : Bool
  werr : Option GoErr
  serr : Option GoErr
deriving DecidableEq, Repr

/-- Embedding of `sshSessionConn.Close`: close the writer (if materialized)
and the session, remembering the first error; the pre-existing client is
not a field and is never closed. -/
def sshSessionConn.Close (c : SshSessionConnState) : List Resource × Option GoErr :=
  let firstErr : Option GoErr := none
  let step := fun (acc : List Resource × Option GoErr) (r : Resource) (e : Option GoErr) =>
    (acc.1 ++ [r], if acc.2 = none then e else acc.2)
  let acc : List Resource × Option GoErr := ([], firstErr)
  let acc := if c.writerSet then step acc .writer c.werr else acc
  let acc := step acc .session c.serr
  acc

/-- Embedding of the fresh-dial `SSHDialer.Close`: `if conn != nil { return
conn.Close() }`, delegating to `sshConn.Close`. -/
def SSHDialer.Close : Option SshConnState → List Resource × Option GoErr
  | none => ([], none)
  | some c => sshConn.Close c

/-- Embedding of `SSHClientDialer.Close` (existing-client variant): `if conn
!= nil { return conn.Close() }`, delegating to `sshSessionConn.Close`. -/
def SSHClientDialer.Close : Option SshSessionConnState → List Resource × Option GoErr
  | none => ([], none)
  | some c => sshSessionConn.Close c

/-- State of a fresh TLS connection at `Close` time: the error its own
`Close` would return. -/
structure TlsConnState where
  closeErr : Option GoErr
deriving DecidableEq, Repr

/-- Embedding of the fresh-dial `TLSDialer.Close`: `if conn != nil { return
conn.Close() }`, closing the TLS connection the dialer created. -/
def TLSDialer.Close : Option TlsConnState → List Resource × Option GoErr
  | none => ([], none)
  | some c => ([.tlsConn], c.closeErr)

/-- Embedding of the client package's `TLSConnDialer.Close`
(existing-connection variant): the body is `return nil`; the pre-existing
connection is never closed. -/
def TLSConnDialer.Close (_conn : Option TlsConnState) : List Resource × Option GoErr :=
  ([], none)

/-- World of external outcomes for a fresh SSH dial: the results of
`ssh.Dial`, `client.NewSession`, and `session.RequestSubsystem("netconf")`
(`none` is success). -/
structure SSHDialWorld where
  dialErr : Option GoErr
  newSessionErr : Option GoErr
  subsystemErr : Option GoErr
deriving DecidableEq, Repr

/-- Outcome of a dial/accept path: the resources closed on the way out, in
the order their `Close` calls ran, and the result (`ok` means a connection
object was returned). -/
structure DialOutcome where
  closed : List Resource
  result : Except GoErr Unit
deriving DecidableEq, Repr

/-- Embedding of the client `SSHDialer.Dial`: dial SSH, open a session,
request the `"netconf"` subsystem; a session-stage failure closes the
client, a subsystem-stage failure closes the session then the client, and
errors are returned unwrapped. -/
def SSHDialer.Dial (w : SSHDialWorld) : DialOutcome :=
  match w.dialErr with
  | some e => ⟨[], .error e⟩
  | none =>
    match w.newSessionErr with
    | some e => ⟨[.client], .error e⟩
    | none =>
      match w.subsystemErr with
      | some e => ⟨[.session, .client], .error e⟩
      | none => ⟨[], .ok ()⟩

/-- A Go context as the dial paths observe it: whether it is already
cancelled and whether it carries a deadline (modelled as an abstract
instant). -/
structure GoContext where
  cancelled : Bool
  deadline : Option Nat
deriving DecidableEq, Repr

/-- A deadline operation performed on a connection: set to a concrete
instant, or clear (Go's `SetDeadline(time.Time{})`). -/
inductive DeadlineOp
  | set (d : Nat)
  | clear
deriving DecidableEq, Repr

/-- World of external outcomes for a TLS handshake path: the TCP
dial/accept result and the handshake result. -/
structure TLSWorld where
  tcpErr : Option GoErr
  handshakeErr : Option GoErr
deriving DecidableEq, Repr

/-- Outcome of a TLS handshake path: the deadline operations performed on
the connection in order, the resources closed, and the result. -/
structure TLSOutcome where
  deadlineOps : List DeadlineOp
  closed : List Resource
  result : Except GoErr Unit
deriving DecidableEq, Repr

/-- Embedding of the client `TLSDialer.Dial`: TCP-dial with the context,
wrap as a TLS client, apply the context deadline (if any) before the
handshake, close the raw TCP connection and return the error on handshake
failure, and clear the deadline after a successful handshake. -/
def TLSDialer.Dial (ctx : GoContext) (w : TLSWorld) : TLSOutcome :=
  match w.tcpErr with
  | some e => ⟨[], [], .error e⟩
  | none =>
    let ops := match ctx.deadline with
      | some d => [DeadlineOp.set d]
      | none => []
    match w.handshakeErr with
    | some e => ⟨ops, [.rawConn], .error e⟩
    | none => ⟨ops ++ [.clear], [], .ok ()⟩

/-- Embedding of the existing-connection `TLSConnDialer.Dial`: the body is
`return d.conn, nil` — it returns the stored connection handle with a nil
error and performs no effects, whatever the context. The first component
records the I/O-effect events the body performs (none). -/
def TLSConnDialer.Dial (conn : Nat) (_ctx : GoContext) : List Resource × Except GoErr Nat :=
  ([], .ok conn)

/-- Embedding of the existing-client `SSHClientDialer.Dial`: open a new
session on the caller's client and request the `"netconf"` subsystem; a
subsystem-stage failure closes only the session — the pre-existing client
is never touched. -/
def SSHClientDialer.Dial (w : SSHDialWorld) : DialOutcome :=
  match w.newSessionErr with
  | some e => ⟨[], .error e⟩
  | none =>
    match w.subsystemErr with
    | some e => ⟨[.session], .error e⟩
    | none => ⟨[], .ok ()⟩

/-- State of a `transportImpl` at `Close` time: its target, whether a
connection was stored, and the error `dialer.Close(conn)` would return. -/
structure TransportCloseState where
  target : String
  connPresent : Bool
  dialerCloseErr : Option GoErr
deriving DecidableEq, Repr

/-- Outcome of `transportImpl.Close`: the single `ConnectionClosed(target,
err)` trace event it emits, and the error it returns. -/
structure TransportCloseOutcome where
  connectionClosedEvent : String × Option GoErr
  ret : Option GoErr
deriving DecidableEq, Repr

/-- Embedding of `transportImpl.Close`:

  func (t *transportImpl) Close() (err error) {
    defer t.trace.ConnectionClosed(t.target, err)
    if t.conn != nil { err = t.dialer.Close(t.conn) }
    return err
  }

Go evaluates a deferred call's arguments when the `defer` statement itself
executes, so the event captures `err` at that moment — the zero value nil —
not the error `dialer.Close` later assigns to `err`. -/
def transportImpl.Close (t : TransportCloseState) : TransportCloseOutcome :=
  let errAtDeferTime : Option GoErr := none
  let err := if t.connPresent then t.dialerCloseErr else none
  { connectionClosedEvent := (t.target, errAtDeferTime), ret := err }

end Client

/-! ## Call-Home client listener (manager role) -/

namespace CallHomeClient

/-- World of external outcomes for `SSHListener.Accept`: the TCP accept
result, the SSH client-handshake result, and the session and subsystem
stage results. -/
structure SSHAcceptWorld where
  acceptErr : Option GoErr
  handshakeErr : Option GoErr
  newSessionErr : Option GoErr
  subsystemErr : Option GoErr
deriving DecidableEq, Repr

/-- Embedding of the callhome `SSHListener.Accept`: accept TCP, perform the
SSH client handshake (closing the raw connection on failure), open a
session (closing the client on failure), request the `"netconf"` subsystem
(closing the session then the client on failure); every error is wrapped
with a stage-identifying prefix. -/
def SSHListener.Accept (w : SSHAcceptWorld) : Client.DialOutcome :=
  match w.acceptErr with
  | some e => ⟨[], .error ("callhome: accept failed: " ++ e)⟩
  | none =>
    match w.handshakeErr with
    | some e => ⟨[.rawConn], .error ("callhome: SSH client handshake failed: " ++ e)⟩
    | none =>
      match w.newSessionErr with
      | some e => ⟨[.client], .error ("callhome: failed to create SSH session: " ++ e)⟩
      | none =>
        match w.subsystemErr with
        | some e =>
          ⟨[.session, .client],
           .error ("callhome: failed to request netconf subsystem: " ++ e)⟩
        | none => ⟨[], .ok ()⟩

/-- Embedding of the callhome `TLSListener.Accept`: accept TCP, wrap as a
TLS client, apply the context deadline (if any) before the handshake, close
the raw connection on handshake failure, clear the deadline after success;
errors are wrapped with a stage prefix. -/
def TLSListener.Accept (ctx : Client.GoContext) (w : Client.TLSWorld) : Client.TLSOutcome :=
  match w.tcpErr with
  | some e => ⟨[], [], .error ("callhome: accept failed: " ++ e)⟩
  | none =>
    let ops := match ctx.deadline with
      | some d => [Client.DeadlineOp.set d]
      | none => []
    match w.handshakeErr with
    | some e => ⟨ops, [.rawConn], .error ("callhome: TLS handshake failed: " ++ e)⟩
    | none => ⟨ops ++ [.clear], [], .ok ()⟩

/-- Embedding of the callhome `SSHConnDialer.Dial`: `return d.conn, nil`,
no effects, whatever the context. -/
def SSHConnDialer.Dial (conn : Nat) (_ctx : Client.GoContext) :
    List Resource × Except GoErr Nat :=
  ([], .ok conn)

/-- Embedding of the callhome `SSHConnDialer.Close`: the body is `return
nil`; the wrapped connection is owned by the caller and never closed. -/
def SSHConnDialer.Close (_conn : Option Nat) : List Resource × Option GoErr :=
  ([], none)

/-- Embedding of the callhome client `TLSConnDialer.Dial`: `return d.conn,
nil`, no effects, whatever the context. -/
def TLSConnDialer.Dial (conn : Nat) (_ctx : Client.GoContext) :
    List Resource × Except GoErr Nat :=
  ([], .ok conn)

/-- Embedding of the callhome client `TLSConnDialer.Close`: the body is
`return nil`; the wrapped connection is owned by the caller and never
closed. -/
def TLSConnDialer.Close (_conn : Option Nat) : List Resource × Option GoErr :=
  ([], none)

end CallHomeClient

/-! ## Call-Home server dialer, TLS variant -/

namespace CallHomeServer

/-- Embedding of the server-side callhome `TLSDialer.Dial`: TCP-dial the
manager, wrap as a TLS *server*, apply the context deadline (if any) before
the handshake, close the raw connection on handshake failure, clear the
deadline after success; errors are wrapped with a stage prefix. -/
def TLSDialer.Dial (ctx : Client.GoContext) (w : Client.TLSWorld) : Client.TLSOutcome :=
  match w.tcpErr with
  | some e => ⟨[], [], .error ("callhome: failed to connect to client: " ++ e)⟩
  | none =>
    let ops := match ctx.deadline with
      | some d => [Client.DeadlineOp.set d]
      | none => []
    match w.handshakeErr with
    | some e => ⟨ops, [.rawConn], .error ("callhome: TLS handshake failed: " ++ e)⟩
    | none => ⟨ops ++ [.clear], [], .ok ()⟩

end CallHomeServer

/-! ## Session factory (`NewRPCSessionFromDialer`) -/

namespace Client

/-- Modelled from the spec: the session layer's `Config` type is outside
this repository's sources; the spec describes it as an optional-fields
record (for example timeouts) in which a zero value means "unset". Two
representative duration fields stand in for its fields. -/
structure Config where
  setupTimeoutSecs : Nat
  requestTimeoutSecs : Nat
deriving DecidableEq, Repr

/-- Modelled from the spec: the process-wide default configuration record,
with every field set to some nonzero default (the concrete values are not
specified, only that they exist). -/
def DefaultConfig : Config :=
  { setupTimeoutSecs := 30, requestTimeoutSecs := 120 }

/-- Modelled from the spec: `mergo.Merge(&dst, src)` used by the factory —
every field of `dst` still at its zero value is overwritten by the
corresponding field of `src`; fields the caller set are preserved. -/
def mergoMerge (dst src : Config) : Config :=
  { setupTimeoutSecs :=
      if dst.setupTimeoutSecs = 0 then src.setupTimeoutSecs else dst.setupTimeoutSecs,
    requestTimeoutSecs :=
      if dst.requestTimeoutSecs = 0 then src.requestTimeoutSecs else dst.requestTimeoutSecs }

/-- Steps the session factory performs, in order, as observable events. -/
inductive FactoryEvent
  | configMerged
  | transportCreated
  | sessionCreated
  | transportClosed
deriving DecidableEq, Repr

/-- World of external outcomes for one factory invocation: whether
`NewTransport` fails and whether the external `NewSession` fails.
`NewSession` is outside this repository's sources; modelled from the spec,
it returns a nil session together with the error on failure. -/
structure FactoryWorld where
  transportErr : Option GoErr
  sessionErr : Option GoErr
deriving DecidableEq, Repr

/-- Outcome of `NewRPCSessionFromDialer`: the ordered step events, the
resolved configuration the session layer received, the caller's
configuration record after the call (the factory copies it, so it is
returned unchanged), and the session/error results. -/
structure FactoryOutcome where
  events : List FactoryEvent
  resolved : Option Config
  callerCfgAfter : Config
  sessionOk : Bool
  err : Option GoErr
deriving DecidableEq, Repr

/-- Embedding of `NewRPCSessionFromDialer`: copy the caller's config, merge
defaults over its zero-valued fields once, build the Transport, then
establish the session with the resolved config; on session failure close
the Transport before returning a nil session with the error. -/
def NewRPCSessionFromDialer (cfg : Config) (w : FactoryWorld) : FactoryOutcome :=
  let resolvedConfig := mergoMerge cfg DefaultConfig
  match w.transportErr with
  | some e =>
    { events := [.configMerged], resolved := none, callerCfgAfter := cfg,
      sessionOk := false, err := some e }
  | none =>
    match w.sessionErr with
    | some e =>
      { events := [.configMerged, .transportCreated, .transportClosed],
        resolved := some resolvedConfig, callerCfgAfter := cfg,
        sessionOk := false, err := some e }
    | none =>
      { events := [.configMerged, .transportCreated, .sessionCreated],
        resolved := some resolvedConfig, callerCfgAfter := cfg,
        sessionOk := true, err := none }

end Client


/-! ## Theorems -/

namespace CallHomeServer

/-- Helper: when no request in the stream is a netconf subsystem request
(and no subsystem-typed payload is short enough to panic), the goroutine
replies false to every request and signals false. -/
lemma serviceRequests_no_netconf (reqs : List ChanRequest)
    (hsafe : ∀ r ∈ reqs, r.reqType = "subsystem" → 4 ≤ r.payload.length)
    (hnone : ∀ r ∈ reqs, ¬ IsNetconfSubsystem r) :
    serviceRequests reqs = .completed (reqs.map fun _ => false) false := by
  induction reqs with
  | nil => rfl
  | cons req rest ih =>
    have hsafe' : ∀ r ∈ rest, r.reqType = "subsystem" → 4 ≤ r.payload.length :=
      fun r hr => hsafe r (List.mem_cons_of_mem _ hr)
    have hnone' : ∀ r ∈ rest, ¬ IsNetconfSubsystem r :=
      fun r hr => hnone r (List.mem_cons_of_mem _ hr)
    have hreq := hnone req (List.mem_cons_self _ _)
    simp only [serviceRequests]
    by_cases hty : req.reqType = "subsystem"
    · have hlen : 4 ≤ req.payload.length := hsafe req (List.mem_cons_self _ _) hty
      have hdrop : ¬ req.payload.drop 4 = netconfBytes :=
        fun hd => hreq ⟨hty, hd⟩
      rw [if_pos hty, if_pos hlen, if_neg hdrop, ih hsafe' hnone']
      simp
    · rw [if_neg hty, ih hsafe' hnone']
      simp

/-- Helper: a payload naming netconf from byte 4 onward has at least four
bytes (its tail has the seven bytes of "netconf"). -/
lemma payload_length_of_netconf {r : ChanRequest} (h : IsNetconfSubsystem r) :
    4 ≤ r.payload.length := by
  obtain ⟨-, hdrop⟩ := h
  have hlen := congrArg List.length hdrop
  simp only [List.length_drop, netconfBytes] at hlen
  simp at hlen
  omega

/-- Helper: when the first netconf subsystem request sits after a prefix of
non-netconf requests, the goroutine replies false to the prefix, true to
that request, false to everything after it, and signals true. -/
lemma serviceRequests_found (pre : List ChanRequest) (req : ChanRequest)
    (post : List ChanRequest)
    (hsafe : ∀ r ∈ pre, r.reqType = "subsystem" → 4 ≤ r.payload.length)
    (hpre : ∀ r ∈ pre, ¬ IsNetconfSubsystem r)
    (hreq : IsNetconfSubsystem req) :
    serviceRequests (pre ++ req :: post) =
      .completed (pre.map (fun _ => false) ++ true :: post.map (fun _ => false)) true := by
  induction pre with
  | nil =>
    obtain ⟨hty, hdrop⟩ := hreq
    have hlen : 4 ≤ req.payload.length := payload_length_of_netconf ⟨hty, hdrop⟩
    simp only [List.nil_append, serviceRequests]
    rw [if_pos hty, if_pos hlen, if_pos hdrop]
    simp
  | cons r rest ih =>
    have hsafe' : ∀ x ∈ rest, x.reqType = "subsystem" → 4 ≤ x.payload.length :=
      fun x hx => hsafe x (List.mem_cons_of_mem _ hx)
    have hpre' : ∀ x ∈ rest, ¬ IsNetconfSubsystem x :=
      fun x hx => hpre x (List.mem_cons_of_mem _ hx)
    have hr := hpre r (List.mem_cons_self _ _)
    simp only [List.cons_append, serviceRequests, List.append_eq]
    by_cases hty : r.reqType = "subsystem"
    · have hlen : 4 ≤ r.payload.length := hsafe r (List.mem_cons_self _ _) hty
      have hdrop : ¬ r.payload.drop 4 = netconfBytes := fun hd => hr ⟨hty, hd⟩
      rw [if_pos hty, if_pos hlen, if_neg hdrop, ih hsafe' hpre']
      simp
    · rw [if_neg hty, ih hsafe' hpre']
      simp

end CallHomeServer

namespace CallHomeServer

/-- C1: for an accepted SSH session channel during Call-Home negotiation,
if the request stream is exhausted without a subsystem request naming
netconf (including when the only requests name a different subsystem), Dial
replies failure to every request, closes the channel, and returns an error,
never a connection; if a netconf subsystem request does arrive, it is
replied success, every subsequent request is replied negatively, and Dial
returns the connection. -/
theorem dial_session_subsystem_negotiation (reqs : List ChanRequest)
    (hsafe : ∀ r ∈ reqs, r.reqType = "subsystem" → 4 ≤ r.payload.length) :
    ((∀ r ∈ reqs, ¬ IsNetconfSubsystem r) →
      SSHDialer.Dial ⟨none, none, [⟨"session", some reqs⟩]⟩ =
        (reqs.map (fun _ => CHEvent.requestReplied false) ++ [CHEvent.channelClosed],
         CHResult.chErr "callhome: netconf subsystem not requested")) ∧
    (∀ pre req post, reqs = pre ++ req :: post →
      (∀ r ∈ pre, ¬ IsNetconfSubsystem r) →
      IsNetconfSubsystem req →
      SSHDialer.Dial ⟨none, none, [⟨"session", some reqs⟩]⟩ =
        (pre.map (fun _ => CHEvent.requestReplied false) ++
           CHEvent.requestReplied true ::
             post.map (fun _ => CHEvent.requestReplied false) ++
           [CHEvent.subsystemReady],
         CHResult.connection)) := by
  constructor
  · intro hnone
    have hsvc := serviceRequests_no_netconf reqs hsafe hnone
    simp [SSHDialer.Dial, handleChannels, hsvc, List.map_map, Function.comp]
  · intro pre req post hre hpre hreq
    subst hre
    have hsafepre : ∀ r ∈ pre, r.reqType = "subsystem" → 4 ≤ r.payload.length :=
      fun r hr => hsafe r (by simp [hr])
    have hsvc := serviceRequests_found pre req post hsafepre hpre hreq
    simp [SSHDialer.Dial, handleChannels, hsvc, List.map_map, List.map_append,
      Function.comp]

/-- Witness for the C1 theorem: a session channel whose requests name only
the sftp subsystem is refused with the channel closed, and one carrying a
netconf subsystem request between two other requests yields a connection
with exactly that request granted. -/
theorem dial_session_subsystem_negotiation_witness :
    SSHDialer.Dial ⟨none, none,
        [⟨"session", some [⟨"shell", [0, 0, 0, 0]⟩,
            ⟨"subsystem", [0, 0, 0, 4, 115, 102, 116, 112]⟩]⟩]⟩ =
      ([CHEvent.requestReplied false, CHEvent.requestReplied false, CHEvent.channelClosed],
       CHResult.chErr "callhome: netconf subsystem not requested") ∧
    SSHDialer.Dial ⟨none, none,
        [⟨"session", some [⟨"shell", [0, 0, 0, 0]⟩,
            ⟨"subsystem", [0, 0, 0, 7] ++ netconfBytes⟩, ⟨"exec", []⟩]⟩]⟩ =
      ([CHEvent.requestReplied false, CHEvent.requestReplied true,
        CHEvent.requestReplied false, CHEvent.subsystemReady],
       CHResult.connection) := by
  constructor
  · exact (dial_session_subsystem_negotiation _ (by decide)).1 (by decide)
  · exact (dial_session_subsystem_negotiation _ (by decide)).2
      [⟨"shell", [0, 0, 0, 0]⟩] ⟨"subsystem", [0, 0, 0, 7] ++ netconfBytes⟩ [⟨"exec", []⟩]
      rfl (by decide) (by decide)

/-- C2: a non-"session" channel-open request is rejected with reason
"unknown channel type" and the negotiation loop continues with the
remaining channels unchanged; if no session channel ever arrives before the
channel stream closes, Dial fails with the "no session channel received"
protocol error. -/
theorem nonsession_rejected_negotiation_continues :
    (∀ pre rest : List NewChannel, (∀ nc ∈ pre, nc.channelType ≠ "session") →
      handleChannels (pre ++ rest) =
        ((pre.map fun _ =>
            CHEvent.channelRejected "UnknownChannelType" "unknown channel type")
           ++ (handleChannels rest).1,
         (handleChannels rest).2)) ∧
    (∀ w : SSHDialWorld, w.tcpErr = none → w.handshakeErr = none →
      (∀ nc ∈ w.channels, nc.channelType ≠ "session") →
      SSHDialer.Dial w =
        ((w.channels.map fun _ =>
            CHEvent.channelRejected "UnknownChannelType" "unknown channel type"),
         CHResult.chErr "callhome: no session channel received")) := by
  have key : ∀ pre rest : List NewChannel, (∀ nc ∈ pre, nc.channelType ≠ "session") →
      handleChannels (pre ++ rest) =
        ((pre.map fun _ =>
            CHEvent.channelRejected "UnknownChannelType" "unknown channel type")
           ++ (handleChannels rest).1,
         (handleChannels rest).2) := by
    intro pre
    induction pre with
    | nil => intro rest _; simp
    | cons nc pre ih =>
      intro rest h
      have hnc := h nc (List.mem_cons_self _ _)
      simp only [List.cons_append, handleChannels, List.append_eq]
      rw [if_neg hnc, ih rest (fun x hx => h x (List.mem_cons_of_mem _ hx))]
      simp
  refine ⟨key, ?_⟩
  intro w h1 h2 h3
  have hk := key w.channels [] h3
  rw [List.append_nil] at hk
  simp [SSHDialer.Dial, h1, h2, hk, handleChannels]

/-- Witness for the C2 theorem: two non-session channels followed by a good
session channel still yield a connection, and a stream of only non-session
channels yields the protocol error with both channels rejected. -/
theorem nonsession_rejected_negotiation_continues_witness :
    handleChannels
        [⟨"direct-tcpip", none⟩,
         ⟨"session", some [⟨"subsystem", [0, 0, 0, 7] ++ netconfBytes⟩]⟩] =
      ([CHEvent.channelRejected "UnknownChannelType" "unknown channel type",
        CHEvent.requestReplied true, CHEvent.subsystemReady],
       CHResult.connection) ∧
    SSHDialer.Dial ⟨none, none, [⟨"direct-tcpip", none⟩, ⟨"x11", some []⟩]⟩ =
      ([CHEvent.channelRejected "UnknownChannelType" "unknown channel type",
        CHEvent.channelRejected "UnknownChannelType" "unknown channel type"],
       CHResult.chErr "callhome: no session channel received") := by
  constructor
  · exact nonsession_rejected_negotiation_continues.1
      [⟨"direct-tcpip", none⟩]
      [⟨"session", some [⟨"subsystem", [0, 0, 0, 7] ++ netconfBytes⟩]⟩]
      (by decide)
  · exact nonsession_rejected_negotiation_continues.2
      ⟨none, none, [⟨"direct-tcpip", none⟩, ⟨"x11", some []⟩]⟩ rfl rfl (by decide)

/-- C9 counterexample: a "subsystem" request whose payload has only three
bytes makes the Go expression `string(req.Payload[4:])` slice out of
bounds; the request goroutine panics (modelled as `.panicked`), so
processing is not safe for every request payload. -/
theorem subsystem_short_payload_oob :
    serviceRequests [⟨"subsystem", [0, 0, 0]⟩] = .panicked [] ∧
    handleChannels [⟨"session", some [⟨"subsystem", [0, 0, 0]⟩]⟩] =
      ([], .panicked) := by
  constructor <;> rfl

/-- C9 amended: extracting the subsystem name never goes out of bounds on a
request stream in which every "subsystem"-typed request carries at least
four payload bytes; the servicing loop then runs to completion. -/
theorem subsystem_extraction_safe (reqs : List ChanRequest)
    (hsafe : ∀ r ∈ reqs, r.reqType = "subsystem" → 4 ≤ r.payload.length) :
    (serviceRequests reqs).isCompleted = true := by
  induction reqs with
  | nil => rfl
  | cons req rest ih =>
    have hsafe' : ∀ r ∈ rest, r.reqType = "subsystem" → 4 ≤ r.payload.length :=
      fun r hr => hsafe r (List.mem_cons_of_mem _ hr)
    have hrec := ih hsafe'
    simp only [serviceRequests]
    by_cases hty : req.reqType = "subsystem"
    · have hlen := hsafe req (List.mem_cons_self _ _) hty
      rw [if_pos hty, if_pos hlen]
      by_cases hdrop : req.payload.drop 4 = netconfBytes
      · rw [if_pos hdrop]; rfl
      · rw [if_neg hdrop]
        cases hsr : serviceRequests rest with
        | completed rs f => rfl
        | panicked rs => rw [hsr] at hrec; simp [SvcOutcome.isCompleted] at hrec
    · rw [if_neg hty]
      cases hsr : serviceRequests rest with
      | completed rs f => rfl
      | panicked rs => rw [hsr] at hrec; simp [SvcOutcome.isCompleted] at hrec

/-- Witness for the C9 amended theorem at a concrete request stream with
well-formed subsystem payloads. -/
theorem subsystem_extraction_safe_witness :
    (serviceRequests [⟨"subsystem", [0, 0, 0, 4]⟩, ⟨"shell", []⟩]).isCompleted = true :=
  subsystem_extraction_safe _ (by decide)

end CallHomeServer

/-- C3: every dialer variant that wraps a pre-existing client/connection
(client TLSConnDialer, Call-Home SSHConnDialer and TLSConnDialer,
SSHClientDialer) never closes the caller-owned client/connection on Close;
every variant that created its own connection (fresh SSH dial, fresh TLS
dial) closes on Close exactly the resources it created. -/
theorem dialer_close_ownership :
    (∀ c, Client.TLSConnDialer.Close c = ([], none)) ∧
    (∀ c, CallHomeClient.SSHConnDialer.Close c = ([], none)) ∧
    (∀ c, CallHomeClient.TLSConnDialer.Close c = ([], none)) ∧
    (∀ oc, Resource.client ∉ (Client.SSHClientDialer.Close oc).1) ∧
    (∀ c : Client.SshConnState,
      (Client.SSHDialer.Close (some c)).1 =
        (if c.writerSet then [Resource.writer] else []) ++
          [Resource.session, Resource.client]) ∧
    (∀ c : Client.TlsConnState,
      (Client.TLSDialer.Close (some c)).1 = [Resource.tlsConn]) := by
  refine ⟨fun _ => rfl, fun _ => rfl, fun _ => rfl, ?_, ?_, fun _ => rfl⟩
  · intro oc
    cases oc with
    | none => simp [Client.SSHClientDialer.Close]
    | some c =>
      simp only [Client.SSHClientDialer.Close, Client.sshSessionConn.Close]
      by_cases hw : c.writerSet <;> simp [hw]
  · intro c
    simp only [Client.SSHDialer.Close, Client.sshConn.Close]
    by_cases hw : c.writerSet <;> simp [hw]

/-- C4: for a fresh SSH dial (outbound `SSHDialer.Dial` and the Call-Home
listener's `Accept` after TCP accept), a session-creation failure closes
the SSH client before the error is returned, and a subsystem-request
failure closes the session and then the client, in that reverse order,
before the error is returned. -/
theorem fresh_ssh_dial_failure_cleanup :
    (∀ (w : Client.SSHDialWorld) (e : GoErr),
      w.dialErr = none → w.newSessionErr = some e →
      Client.SSHDialer.Dial w = ⟨[Resource.client], .error e⟩) ∧
    (∀ (w : Client.SSHDialWorld) (e : GoErr),
      w.dialErr = none → w.newSessionErr = none → w.subsystemErr = some e →
      Client.SSHDialer.Dial w = ⟨[Resource.session, Resource.client], .error e⟩) ∧
    (∀ (w : CallHomeClient.SSHAcceptWorld) (e : GoErr),
      w.acceptErr = none → w.handshakeErr = none → w.newSessionErr = some e →
      CallHomeClient.SSHListener.Accept w =
        ⟨[Resource.client], .error ("callhome: failed to create SSH session: " ++ e)⟩) ∧
    (∀ (w : CallHomeClient.SSHAcceptWorld) (e : GoErr),
      w.acceptErr = none → w.handshakeErr = none → w.newSessionErr = none →
      w.subsystemErr = some e →
      CallHomeClient.SSHListener.Accept w =
        ⟨[Resource.session, Resource.client],
         .error ("callhome: failed to request netconf subsystem: " ++ e)⟩) := by
  refine ⟨?_, ?_, ?_, ?_⟩
  · intro w e h1 h2; simp [Client.SSHDialer.Dial, h1, h2]
  · intro w e h1 h2 h3; simp [Client.SSHDialer.Dial, h1, h2, h3]
  · intro w e h1 h2 h3; simp [CallHomeClient.SSHListener.Accept, h1, h2, h3]
  · intro w e h1 h2 h3 h4; simp [CallHomeClient.SSHListener.Accept, h1, h2, h3, h4]

/-- Witness for the C4 theorem at concrete worlds failing at each stage. -/
theorem fresh_ssh_dial_failure_cleanup_witness :
    Client.SSHDialer.Dial ⟨none, some "session refused", none⟩ =
      ⟨[Resource.client], .error "session refused"⟩ ∧
    Client.SSHDialer.Dial ⟨none, none, some "subsystem refused"⟩ =
      ⟨[Resource.session, Resource.client], .error "subsystem refused"⟩ ∧
    CallHomeClient.SSHListener.Accept ⟨none, none, some "session refused", none⟩ =
      ⟨[Resource.client],
       .error "callhome: failed to create SSH session: session refused"⟩ ∧
    CallHomeClient.SSHListener.Accept ⟨none, none, none, some "subsystem refused"⟩ =
      ⟨[Resource.session, Resource.client],
       .error "callhome: failed to request netconf subsystem: subsystem refused"⟩ := by
  refine ⟨?_, ?_, ?_, ?_⟩
  · exact fresh_ssh_dial_failure_cleanup.1 ⟨none, some "session refused", none⟩
      "session refused" rfl rfl
  · exact fresh_ssh_dial_failure_cleanup.2.1 ⟨none, none, some "subsystem refused"⟩
      "subsystem refused" rfl rfl rfl
  · exact fresh_ssh_dial_failure_cleanup.2.2.1
      ⟨none, none, some "session refused", none⟩ "session refused" rfl rfl rfl
  · exact fresh_ssh_dial_failure_cleanup.2.2.2
      ⟨none, none, none, some "subsystem refused"⟩ "subsystem refused" rfl rfl rfl rfl

/-- C5 counterexample: when `dialer.Close` fails, `transportImpl.Close`
returns that error, but the ConnectionClosed trace event does not carry it
— the deferred call captured the nil value of `err` — so the claim that the
event reports the `dialer.Close` error is false at this input. -/
theorem transport_close_event_error_counterexample :
    (Client.transportImpl.Close ⟨"device:830", true, some "close failed"⟩).ret =
      some "close failed" ∧
    (Client.transportImpl.Close ⟨"device:830", true, some "close failed"⟩).connectionClosedEvent.2 ≠
      (Client.transportImpl.Close ⟨"device:830", true, some "close failed"⟩).ret := by
  constructor
  · rfl
  · decide

/-- C5 amended: `transportImpl.Close` returns the error from `dialer.Close`
(nil when no connection is present), and it emits one ConnectionClosed
event with the transport's target and a nil error, because Go evaluated the
deferred call's `err` argument before `dialer.Close` ran. -/
theorem transport_close_reports_nil_error (t : Client.TransportCloseState) (e : GoErr)
    (h1 : t.connPresent = true) (h2 : t.dialerCloseErr = some e) :
    (Client.transportImpl.Close t).ret = some e ∧
    (Client.transportImpl.Close t).connectionClosedEvent = (t.target, none) := by
  simp [Client.transportImpl.Close, h1, h2]

/-- Witness for the C5 amended theorem at a concrete failing close. -/
theorem transport_close_reports_nil_error_witness :
    (Client.transportImpl.Close ⟨"router:830", true, some "boom"⟩).ret = some "boom" ∧
    (Client.transportImpl.Close ⟨"router:830", true, some "boom"⟩).connectionClosedEvent =
      ("router:830", none) :=
  transport_close_reports_nil_error ⟨"router:830", true, some "boom"⟩ "boom" rfl rfl

/-- C6: on every TLS handshake path (fresh client TLS dial, Call-Home
listener TLS Accept, Call-Home device TLS Dial), a context deadline is
applied before the handshake and cleared after a successful handshake, and
a handshake failure closes the raw TCP connection and returns the error. -/
theorem tls_handshake_deadline_and_cleanup :
    (∀ (ctx : Client.GoContext) (w : Client.TLSWorld) (d : Nat),
      ctx.deadline = some d → w.tcpErr = none → w.handshakeErr = none →
      Client.TLSDialer.Dial ctx w =
        ⟨[Client.DeadlineOp.set d, Client.DeadlineOp.clear], [], .ok ()⟩) ∧
    (∀ (ctx : Client.GoContext) (w : Client.TLSWorld) (e : GoErr),
      w.tcpErr = none → w.handshakeErr = some e →
      (Client.TLSDialer.Dial ctx w).closed = [Resource.rawConn] ∧
      (Client.TLSDialer.Dial ctx w).result = .error e ∧
      (Client.TLSDialer.Dial ctx w).deadlineOps =
        (match ctx.deadline with
         | some d => [Client.DeadlineOp.set d]
         | none => [])) ∧
    (∀ (ctx : Client.GoContext) (w : Client.TLSWorld) (d : Nat),
      ctx.deadline = some d → w.tcpErr = none → w.handshakeErr = none →
      CallHomeClient.TLSListener.Accept ctx w =
        ⟨[Client.DeadlineOp.set d, Client.DeadlineOp.clear], [], .ok ()⟩) ∧
    (∀ (ctx : Client.GoContext) (w : Client.TLSWorld) (e : GoErr),
      w.tcpErr = none → w.handshakeErr = some e →
      (CallHomeClient.TLSListener.Accept ctx w).closed = [Resource.rawConn] ∧
      (CallHomeClient.TLSListener.Accept ctx w).result =
        .error ("callhome: TLS handshake failed: " ++ e)) ∧
    (∀ (ctx : Client.GoContext) (w : Client.TLSWorld) (d : Nat),
      ctx.deadline = some d → w.tcpErr = none → w.handshakeErr = none →
      CallHomeServer.TLSDialer.Dial ctx w =
        ⟨[Client.DeadlineOp.set d, Client.DeadlineOp.clear], [], .ok ()⟩) ∧
    (∀ (ctx : Client.GoContext) (w : Client.TLSWorld) (e : GoErr),
      w.tcpErr = none → w.handshakeErr = some e →
      (CallHomeServer.TLSDialer.Dial ctx w).closed = [Resource.rawConn] ∧
      (CallHomeServer.TLSDialer.Dial ctx w).result =
        .error ("callhome: TLS handshake failed: " ++ e)) := by
  refine ⟨?_, ?_, ?_, ?_, ?_, ?_⟩
  · intro ctx w d h1 h2 h3; simp [Client.TLSDialer.Dial, h1, h2, h3]
  · intro ctx w e h1 h2
    cases hd : ctx.deadline <;>
      simp [Client.TLSDialer.Dial, h1, h2, hd]
  · intro ctx w d h1 h2 h3; simp [CallHomeClient.TLSListener.Accept, h1, h2, h3]
  · intro ctx w e h1 h2
    cases hd : ctx.deadline <;>
      simp [CallHomeClient.TLSListener.Accept, h1, h2, hd]
  · intro ctx w d h1 h2 h3; simp [CallHomeServer.TLSDialer.Dial, h1, h2, h3]
  · intro ctx w e h1 h2
    cases hd : ctx.deadline <;>
      simp [CallHomeServer.TLSDialer.Dial, h1, h2, hd]

/-- Witness for the C6 theorem: a deadline-carrying context on a successful
handshake, and a failing handshake, on each of the three paths. -/
theorem tls_handshake_deadline_and_cleanup_witness :
    Client.TLSDialer.Dial ⟨false, some 7⟩ ⟨none, none⟩ =
      ⟨[Client.DeadlineOp.set 7, Client.DeadlineOp.clear], [], .ok ()⟩ ∧
    (Client.TLSDialer.Dial ⟨false, some 7⟩ ⟨none, some "bad cert"⟩).closed =
      [Resource.rawConn] ∧
    CallHomeClient.TLSListener.Accept ⟨false, some 7⟩ ⟨none, none⟩ =
      ⟨[Client.DeadlineOp.set 7, Client.DeadlineOp.clear], [], .ok ()⟩ ∧
    (CallHomeClient.TLSListener.Accept ⟨false, some 7⟩ ⟨none, some "bad cert"⟩).result =
      .error "callhome: TLS handshake failed: bad cert" ∧
    CallHomeServer.TLSDialer.Dial ⟨false, some 7⟩ ⟨none, none⟩ =
      ⟨[Client.DeadlineOp.set 7, Client.DeadlineOp.clear], [], .ok ()⟩ ∧
    (CallHomeServer.TLSDialer.Dial ⟨false, some 7⟩ ⟨none, some "bad cert"⟩).closed =
      [Resource.rawConn] := by
  refine ⟨?_, ?_, ?_, ?_, ?_, ?_⟩
  · exact tls_handshake_deadline_and_cleanup.1 ⟨false, some 7⟩ ⟨none, none⟩ 7 rfl rfl rfl
  · exact (tls_handshake_deadline_and_cleanup.2.1 ⟨false, some 7⟩
      ⟨none, some "bad cert"⟩ "bad cert" rfl rfl).1
  · exact tls_handshake_deadline_and_cleanup.2.2.1 ⟨false, some 7⟩ ⟨none, none⟩ 7
      rfl rfl rfl
  · exact (tls_handshake_deadline_and_cleanup.2.2.2.1 ⟨false, some 7⟩
      ⟨none, some "bad cert"⟩ "bad cert" rfl rfl).2
  · exact tls_handshake_deadline_and_cleanup.2.2.2.2.1 ⟨false, some 7⟩ ⟨none, none⟩ 7
      rfl rfl rfl
  · exact (tls_handshake_deadline_and_cleanup.2.2.2.2.2 ⟨false, some 7⟩
      ⟨none, some "bad cert"⟩ "bad cert" rfl rfl).1

/-- C7: the session factory merges the caller-supplied configuration over
the process-wide defaults exactly once, as its first step (before the
Transport is constructed): zero-valued fields inherit the default, caller
set fields are preserved, and the caller's record itself is unchanged. -/
theorem factory_config_merge (cfg : Client.Config) (w : Client.FactoryWorld) :
    (Client.NewRPCSessionFromDialer cfg w).callerCfgAfter = cfg ∧
    ((Client.NewRPCSessionFromDialer cfg w).events.count
        Client.FactoryEvent.configMerged) = 1 ∧
    (Client.NewRPCSessionFromDialer cfg w).events.head? =
      some Client.FactoryEvent.configMerged ∧
    (∀ rc, (Client.NewRPCSessionFromDialer cfg w).resolved = some rc →
      (cfg.setupTimeoutSecs = 0 →
        rc.setupTimeoutSecs = Client.DefaultConfig.setupTimeoutSecs) ∧
      (cfg.setupTimeoutSecs ≠ 0 → rc.setupTimeoutSecs = cfg.setupTimeoutSecs) ∧
      (cfg.requestTimeoutSecs = 0 →
        rc.requestTimeoutSecs = Client.DefaultConfig.requestTimeoutSecs) ∧
      (cfg.requestTimeoutSecs ≠ 0 → rc.requestTimeoutSecs = cfg.requestTimeoutSecs)) := by
  cases hte : w.transportErr with
  | some e =>
    refine ⟨?_, ?_, ?_, ?_⟩ <;>
      simp [Client.NewRPCSessionFromDialer, hte]
  | none =>
    cases hse : w.sessionErr with
    | some e =>
      refine ⟨?_, ?_, ?_, ?_⟩
      · simp [Client.NewRPCSessionFromDialer, hte, hse]
      · simp [Client.NewRPCSessionFromDialer, hte, hse]
      · simp [Client.NewRPCSessionFromDialer, hte, hse]
      · intro rc hrc
        simp [Client.NewRPCSessionFromDialer, hte, hse] at hrc
        subst hrc
        refine ⟨?_, ?_, ?_, ?_⟩ <;>
          intro h <;> simp [Client.mergoMerge, h]
    | none =>
      refine ⟨?_, ?_, ?_, ?_⟩
      · simp [Client.NewRPCSessionFromDialer, hte, hse]
      · simp [Client.NewRPCSessionFromDialer, hte, hse]
      · simp [Client.NewRPCSessionFromDialer, hte, hse]
      · intro rc hrc
        simp [Client.NewRPCSessionFromDialer, hte, hse] at hrc
        subst hrc
        refine ⟨?_, ?_, ?_, ?_⟩ <;>
          intro h <;> simp [Client.mergoMerge, h]

/-- Witness for the C7 theorem: a config with one unset and one set field
resolves to the default for the former and the caller's value for the
latter, leaving the caller's record unchanged. -/
theorem factory_config_merge_witness :
    (Client.NewRPCSessionFromDialer ⟨0, 5⟩ ⟨none, none⟩).callerCfgAfter = ⟨0, 5⟩ ∧
    (⟨30, 5⟩ : Client.Config).setupTimeoutSecs =
      Client.DefaultConfig.setupTimeoutSecs ∧
    (⟨30, 5⟩ : Client.Config).requestTimeoutSecs =
      (⟨0, 5⟩ : Client.Config).requestTimeoutSecs := by
  have h := factory_config_merge ⟨0, 5⟩ ⟨none, none⟩
  refine ⟨h.1, ?_, ?_⟩
  · exact (h.2.2.2 ⟨30, 5⟩ rfl).1 rfl
  · exact (h.2.2.2 ⟨30, 5⟩ rfl).2.2.2 (by decide)

/-- C8: when the Transport is constructed successfully but session
establishment fails, the factory closes the Transport before returning,
and returns no session together with the error. -/
theorem factory_session_failure_closes_transport (cfg : Client.Config)
    (w : Client.FactoryWorld) (e : GoErr)
    (h1 : w.transportErr = none) (h2 : w.sessionErr = some e) :
    (Client.NewRPCSessionFromDialer cfg w).sessionOk = false ∧
    (Client.NewRPCSessionFromDialer cfg w).err = some e ∧
    (Client.NewRPCSessionFromDialer cfg w).events =
      [Client.FactoryEvent.configMerged, Client.FactoryEvent.transportCreated,
       Client.FactoryEvent.transportClosed] := by
  simp [Client.NewRPCSessionFromDialer, h1, h2]

/-- Witness for the C8 theorem at a concrete failing session establishment. -/
theorem factory_session_failure_closes_transport_witness :
    (Client.NewRPCSessionFromDialer ⟨0, 0⟩ ⟨none, some "hello failed"⟩).sessionOk = false ∧
    (Client.NewRPCSessionFromDialer ⟨0, 0⟩ ⟨none, some "hello failed"⟩).err =
      some "hello failed" ∧
    (Client.NewRPCSessionFromDialer ⟨0, 0⟩ ⟨none, some "hello failed"⟩).events =
      [Client.FactoryEvent.configMerged, Client.FactoryEvent.transportCreated,
       Client.FactoryEvent.transportClosed] :=
  factory_session_failure_closes_transport ⟨0, 0⟩ ⟨none, some "hello failed"⟩
    "hello failed" rfl rfl

/-- C10: every dialer wrapping a pre-established connection (client
TLSConnDialer, Call-Home SSHConnDialer and TLSConnDialer) returns the
identical stored connection with a nil error and performs no effects, for
every context — including an already-cancelled or expired one — and Dial is
deterministic across contexts. -/
theorem conn_dialer_dial_pure :
    ∀ (conn : Nat) (ctx ctx' : Client.GoContext),
      Client.TLSConnDialer.Dial conn ctx = ([], .ok conn) ∧
      CallHomeClient.SSHConnDialer.Dial conn ctx = ([], .ok conn) ∧
      CallHomeClient.TLSConnDialer.Dial conn ctx = ([], .ok conn) ∧
      Client.TLSConnDialer.Dial conn ctx = Client.TLSConnDialer.Dial conn ctx' ∧
      CallHomeClient.SSHConnDialer.Dial conn ctx =
        CallHomeClient.SSHConnDialer.Dial conn ctx' ∧
      CallHomeClient.TLSConnDialer.Dial conn ctx =
        CallHomeClient.TLSConnDialer.Dial conn ctx' :=
  fun _ _ _ => ⟨rfl, rfl, rfl, rfl, rfl, rfl⟩
